import Mathlib

/-!
Verification of the client-side conversational state machine of the
AI-tutor chat frontend. The definitions below are a shallow embedding of
`src/frontend/src/hooks/useChat.ts` and `src/frontend/src/api/tutor.ts`:
TypeScript objects become structures, each `setState` call becomes a pure
state-transforming function, the asynchronous network call becomes an
explicit `Except` argument carrying either the raw backend response or the
thrown error's optional message, and the fresh UUIDs / `Date.now()`
timestamps produced by the environment become explicit parameters.
-/

/-- One option of a multiple-choice question (`QuestionOption` in types/chat.ts). -/
structure QuestionOption where
  id : String
  text : String
  isCorrect : Bool
deriving DecidableEq, Repr

/-- One multiple-choice question (`Question` in types/chat.ts). -/
structure Question where
  id : String
  question : String
  options : List QuestionOption
  explanation : String
deriving DecidableEq, Repr

/-- A student's selection for one question (`QuestionAnswer` in types/chat.ts). -/
structure QuestionAnswer where
  questionId : String
  selectedOptionId : String
deriving DecidableEq, Repr

/-- The `metadata` record of a `ChatMessage` (types/chat.ts). `user_role` is
the TypeScript string union `'student' | 'ai_tutor'`, kept as a string. -/
structure MessageMetadata where
  timestamp : Nat
  user_id : String
  user_role : String
  message_id : String
  session_id : String
deriving DecidableEq, Repr

/-- One turn of the conversation (`ChatMessage` in types/chat.ts). Optional
TypeScript fields become `Option`. -/
structure ChatMessage where
  message : String
  metadata : MessageMetadata
  questions : Option (List Question) := none
  questionsTitle : Option String := none
  cited_paragraphs : Option (List String) := none
deriving DecidableEq, Repr

/-- The outbound payload (`TutorRequest` in types/chat.ts). -/
structure TutorRequest where
  question : String
  context : Option String := none
  temperature : Option Rat := none
  session_id : String
  question_answers : Option (List QuestionAnswer) := none
deriving DecidableEq, Repr

/-- The response type the hook consumes (`TutorResponse` in types/chat.ts). -/
structure TutorResponse where
  answer : String
  model_used : String
  tokens_used : Option Nat := none
  questions : Option (List Question) := none
  questions_title : Option String := none
  cited_paragraphs : Option (List String) := none
deriving DecidableEq, Repr

/-- The raw shape the backend returns (`ApiTutorResponse` in api/tutor.ts).
It has no `cited_paragraphs` field. -/
structure ApiTutorResponse where
  answer : String
  model_used : String
  tokens_used : Option Nat := none
  questions : Option (List Question) := none
  questions_title : Option String := none
deriving DecidableEq, Repr

/-- `ChatState` of types/chat.ts: the aggregate held by `useState` in `useChat`. -/
structure ChatState where
  messages : List ChatMessage
  isLoading : Bool
  error : Option String
  sessionId : String
  pendingAnswers : List QuestionAnswer
  submittedAnswers : List QuestionAnswer
deriving DecidableEq, Repr

/-- The initial state built in `useChat` (useChat.ts lines 7-14); the fresh
session UUID is a parameter. -/
def initialState (sid : String) : ChatState :=
  { messages := [], isLoading := false, error := none, sessionId := sid,
    pendingAnswers := [], submittedAnswers := [] }

/-- `tutorApi.sendMessage`'s result construction (api/tutor.ts lines 15-21):
wraps the raw response, defaulting a missing `questions` to `[]`
(`response.data.questions || []`) and never carrying `cited_paragraphs`. -/
def tutorApiSendMessage (raw : ApiTutorResponse) : TutorResponse :=
  { answer := raw.answer,
    model_used := raw.model_used,
    tokens_used := raw.tokens_used,
    questions := some (raw.questions.getD []),
    questions_title := raw.questions_title,
    cited_paragraphs := none }

/-- `allQuestions` (useChat.ts lines 17-25): a `forEach` over the messages
pushing every message's `questions` (when present) onto an accumulator. -/
def allQuestions (messages : List ChatMessage) : List Question :=
  messages.foldl (fun acc msg => acc ++ msg.questions.getD []) []

/-- `setPendingAnswers` (useChat.ts lines 27-29): wholesale replacement of
`pendingAnswers`, no guard against already-submitted question ids. -/
def setPendingAnswers (s : ChatState) (answers : List QuestionAnswer) : ChatState :=
  { s with pendingAnswers := answers }

/-- `clearError` (useChat.ts lines 142-144). -/
def clearError (s : ChatState) : ChatState :=
  { s with error := none }

/-- The requester message built in `sendMessage` (useChat.ts lines 36-45);
`Date.now()` and `uuidv4()` are the `ts` and `msgId` parameters. -/
def mkUserMessage (messageText : String) (ts : Nat) (msgId sid : String) : ChatMessage :=
  { message := messageText,
    metadata := { timestamp := ts, user_id := "alex_student_001",
                  user_role := "student", message_id := msgId, session_id := sid } }

/-- The tutor message built from a response in `sendMessage` (useChat.ts
lines 66-77) and `submitAnswersOnly` (lines 115-126): it copies `answer`,
`questions` and `questions_title` and sets no `cited_paragraphs`. -/
def mkAiMessage (r : TutorResponse) (ts : Nat) (msgId sid : String) : ChatMessage :=
  { message := r.answer,
    metadata := { timestamp := ts, user_id := "ai_tutor",
                  user_role := "ai_tutor", message_id := msgId, session_id := sid },
    questions := r.questions,
    questionsTitle := r.questions_title }

/-- The optimistic `setState` of `sendMessage` (useChat.ts lines 48-55):
append the user message, raise `isLoading`, clear `error`, clear pending,
append the captured pending snapshot to the submitted (locked) list. -/
def sendMessageOptimistic (s : ChatState) (messageText : String) (ts : Nat)
    (msgId : String) : ChatState :=
  { s with messages := s.messages ++ [mkUserMessage messageText ts msgId s.sessionId],
           isLoading := true,
           error := none,
           pendingAnswers := [],
           submittedAnswers := s.submittedAnswers ++ s.pendingAnswers }

/-- The request `sendMessage` posts (useChat.ts lines 59-63), built from the
pre-call state: `question_answers` is the pending snapshot when non-empty
and `undefined` (here `none`) otherwise. -/
def sendMessageRequest (s : ChatState) (messageText : String) : TutorRequest :=
  { question := messageText,
    session_id := s.sessionId,
    question_answers :=
      if s.pendingAnswers.length > 0 then some s.pendingAnswers else none }

/-- The success `setState` shared by both dispatch paths (useChat.ts
lines 79-83 and 128-132): append the tutor message, drop `isLoading`. -/
def dispatchSuccess (s : ChatState) (r : TutorResponse) (ts : Nat)
    (msgId : String) : ChatState :=
  { s with messages := s.messages ++ [mkAiMessage r ts msgId s.sessionId],
           isLoading := false }

/-- The catch-branch `setState` shared by both dispatch paths (useChat.ts
lines 85-89 and 134-138): drop `isLoading`, surface the thrown error's
message or the given fallback string. `err` is `some m` when the thrown
value is an `Error` with message `m`. -/
def dispatchFailure (s : ChatState) (err : Option String) (fallback : String) : ChatState :=
  { s with isLoading := false, error := some (err.getD fallback) }

/-- A complete `sendMessage` invocation (useChat.ts lines 31-91) under the
single-dispatch cooperative model: the optimistic phase commits, then the
awaited call either returns a raw response (converted by
`tutorApiSendMessage`) or throws. -/
def sendMessage (s : ChatState) (messageText : String) (ts1 : Nat) (msgId1 : String)
    (result : Except (Option String) ApiTutorResponse) (ts2 : Nat)
    (msgId2 : String) : ChatState :=
  let s1 := sendMessageOptimistic s messageText ts1 msgId1
  match result with
  | Except.ok raw => dispatchSuccess s1 (tutorApiSendMessage raw) ts2 msgId2
  | Except.error e => dispatchFailure s1 e "Failed to send message"

/-- The optimistic `setState` of `submitAnswersOnly` (useChat.ts lines
99-105): no message is appended. -/
def submitAnswersOnlyOptimistic (s : ChatState) : ChatState :=
  { s with isLoading := true,
           error := none,
           pendingAnswers := [],
           submittedAnswers := s.submittedAnswers ++ s.pendingAnswers }

/-- The request `submitAnswersOnly` posts when its guard passes (useChat.ts
lines 109-113): empty `question`, answers always attached; `none` when the
guard returns early and no call is made. -/
def submitAnswersOnlyRequest (s : ChatState) : Option TutorRequest :=
  if s.pendingAnswers.length = 0 then none
  else some { question := "",
              session_id := s.sessionId,
              question_answers := some s.pendingAnswers }

/-- A complete `submitAnswersOnly` invocation (useChat.ts lines 94-140):
early return on empty pending, otherwise optimistic phase then resolution. -/
def submitAnswersOnly (s : ChatState) (result : Except (Option String) ApiTutorResponse)
    (ts : Nat) (msgId : String) : ChatState :=
  if s.pendingAnswers.length = 0 then s
  else
    let s1 := submitAnswersOnlyOptimistic s
    match result with
    | Except.ok raw => dispatchSuccess s1 (tutorApiSendMessage raw) ts msgId
    | Except.error e => dispatchFailure s1 e "Failed to submit answers"

/-- One application of any of the four exported operations, with the
environment inputs (text, clock readings, UUIDs, network outcome)
unconstrained. -/
inductive OpStep : ChatState → ChatState → Prop where
  | setPending (s : ChatState) (answers : List QuestionAnswer) :
      OpStep s (setPendingAnswers s answers)
  | send (s : ChatState) (messageText : String) (ts1 : Nat) (msgId1 : String)
      (result : Except (Option String) ApiTutorResponse) (ts2 : Nat) (msgId2 : String) :
      OpStep s (sendMessage s messageText ts1 msgId1 result ts2 msgId2)
  | submit (s : ChatState) (result : Except (Option String) ApiTutorResponse)
      (ts : Nat) (msgId : String) :
      OpStep s (submitAnswersOnly s result ts msgId)
  | clear (s : ChatState) : OpStep s (clearError s)

/-- States reachable from the initial state by any interleaving of the four
operations. -/
inductive Reachable : ChatState → Prop where
  | init (sid : String) : Reachable (initialState sid)
  | step {s t : ChatState} : Reachable s → OpStep s t → Reachable t

/-- The same four operations, but with every `setPendingAnswers` call obeying
the caller contract of the spec: the supplied answers name no `questionId`
already in the submitted (locked) list. -/
inductive GuardedStep : ChatState → ChatState → Prop where
  | setPending (s : ChatState) (answers : List QuestionAnswer)
      (h : ∀ a ∈ answers, ∀ b ∈ s.submittedAnswers, a.questionId ≠ b.questionId) :
      GuardedStep s (setPendingAnswers s answers)
  | send (s : ChatState) (messageText : String) (ts1 : Nat) (msgId1 : String)
      (result : Except (Option String) ApiTutorResponse) (ts2 : Nat) (msgId2 : String) :
      GuardedStep s (sendMessage s messageText ts1 msgId1 result ts2 msgId2)
  | submit (s : ChatState) (result : Except (Option String) ApiTutorResponse)
      (ts : Nat) (msgId : String) :
      GuardedStep s (submitAnswersOnly s result ts msgId)
  | clear (s : ChatState) : GuardedStep s (clearError s)

/-- Reachability under the guarded `setPendingAnswers` contract. -/
inductive GuardedReachable : ChatState → Prop where
  | init (sid : String) : GuardedReachable (initialState sid)
  | step {s t : ChatState} : GuardedReachable s → GuardedStep s t → GuardedReachable t

/-- The four operations under the monotone-clock assumption: every timestamp
handed to an append is at least every timestamp already in the transcript,
and within one `sendMessage` the tutor message's clock reading is not
before the requester message's. -/
inductive ClockedStep : ChatState → ChatState → Prop where
  | setPending (s : ChatState) (answers : List QuestionAnswer) :
      ClockedStep s (setPendingAnswers s answers)
  | send (s : ChatState) (messageText : String) (ts1 : Nat) (msgId1 : String)
      (result : Except (Option String) ApiTutorResponse) (ts2 : Nat) (msgId2 : String)
      (h1 : ∀ m ∈ s.messages, m.metadata.timestamp ≤ ts1) (h2 : ts1 ≤ ts2) :
      ClockedStep s (sendMessage s messageText ts1 msgId1 result ts2 msgId2)
  | submit (s : ChatState) (result : Except (Option String) ApiTutorResponse)
      (ts : Nat) (msgId : String)
      (h : ∀ m ∈ s.messages, m.metadata.timestamp ≤ ts) :
      ClockedStep s (submitAnswersOnly s result ts msgId)
  | clear (s : ChatState) : ClockedStep s (clearError s)

/-- Reachability under the monotone-clock assumption. -/
inductive ClockedReachable : ChatState → Prop where
  | init (sid : String) : ClockedReachable (initialState sid)
  | step {s t : ChatState} : ClockedReachable s → ClockedStep s t → ClockedReachable t

/-- Concrete answer for question q1, option a. -/
def qaA : QuestionAnswer := { questionId := "q1", selectedOptionId := "a" }

/-- Concrete answer for question q1, option b. -/
def qaB : QuestionAnswer := { questionId := "q1", selectedOptionId := "b" }

/-- Concrete answer for question q2, option x. -/
def qaC : QuestionAnswer := { questionId := "q2", selectedOptionId := "x" }

/-- Trace state: q1 selected as pending. -/
def trace1 : ChatState := setPendingAnswers (initialState "s0") [qaA]

/-- Trace state: a send locked q1 (the network outcome is irrelevant; a
failure is used). -/
def trace2 : ChatState := sendMessage trace1 "hi" 1 "m1" (Except.error none) 1 "m2"

/-- Trace state: `setPendingAnswers` reintroduces the already-locked q1. -/
def trace3 : ChatState := setPendingAnswers trace2 [qaB]

/-- Trace state: after locking q1, a fresh question q2 is selected — the
guarded counterpart of `trace3`. -/
def trace4 : ChatState := setPendingAnswers trace2 [qaC]

/-- A concrete raw backend response with no questions attached. -/
def rawResp : ApiTutorResponse := { answer := "ok", model_used := "gpt" }

/-- Concrete question fixtures for the question-index round trip. -/
def qX : Question := { id := "x", question := "qx", options := [], explanation := "" }

/-- Second concrete question fixture. -/
def qY : Question := { id := "y", question := "qy", options := [], explanation := "" }

/-- Third concrete question fixture. -/
def qZ : Question := { id := "z", question := "qz", options := [], explanation := "" }

/-- A concrete tutor message carrying questions `[qX, qY]`. -/
def tutorMsg1 : ChatMessage :=
  { message := "t1",
    metadata := { timestamp := 1, user_id := "ai_tutor", user_role := "ai_tutor",
                  message_id := "i1", session_id := "s" },
    questions := some [qX, qY] }

/-- A concrete tutor message carrying questions `[qZ]`. -/
def tutorMsg2 : ChatMessage :=
  { message := "t2",
    metadata := { timestamp := 2, user_id := "ai_tutor", user_role := "ai_tutor",
                  message_id := "i2", session_id := "s" },
    questions := some [qZ] }

/-- C3: the synchronous phase of `sendMessage` appends, in one state
transition, a student-role message with the given fresh id and timestamp
and the session's id, raises `isLoading`, clears `error`, empties the
pending list and appends exactly the old pending list to the submitted
(locked) list; the appended message's id differs from every prior one. -/
theorem sendMessage_optimistic_phase (s : ChatState) (messageText : String)
    (ts : Nat) (msgId : String)
    (hfresh : ∀ m ∈ s.messages, m.metadata.message_id ≠ msgId) :
    (sendMessageOptimistic s messageText ts msgId).messages
        = s.messages ++ [mkUserMessage messageText ts msgId s.sessionId]
      ∧ (mkUserMessage messageText ts msgId s.sessionId).message = messageText
      ∧ (mkUserMessage messageText ts msgId s.sessionId).metadata.user_role = "student"
      ∧ (mkUserMessage messageText ts msgId s.sessionId).metadata.timestamp = ts
      ∧ (mkUserMessage messageText ts msgId s.sessionId).metadata.message_id = msgId
      ∧ (mkUserMessage messageText ts msgId s.sessionId).metadata.session_id = s.sessionId
      ∧ (∀ m ∈ s.messages,
          m.metadata.message_id
            ≠ (mkUserMessage messageText ts msgId s.sessionId).metadata.message_id)
      ∧ (sendMessageOptimistic s messageText ts msgId).isLoading = true
      ∧ (sendMessageOptimistic s messageText ts msgId).error = none
      ∧ (sendMessageOptimistic s messageText ts msgId).pendingAnswers = []
      ∧ (sendMessageOptimistic s messageText ts msgId).submittedAnswers
          = s.submittedAnswers ++ s.pendingAnswers :=
  ⟨rfl, rfl, rfl, rfl, rfl, rfl, hfresh, rfl, rfl, rfl, rfl⟩

/-- C3 witness: the optimistic phase evaluated from the empty initial state. -/
theorem sendMessage_optimistic_phase_witness :
    (∀ m ∈ (initialState "sid").messages, m.metadata.message_id ≠ "u1")
      ∧ (sendMessageOptimistic (initialState "sid") "hello" 5 "u1").isLoading = true
      ∧ (sendMessageOptimistic (initialState "sid") "hello" 5 "u1").pendingAnswers = []
      ∧ (sendMessageOptimistic (initialState "sid") "hello" 5 "u1").messages
          = (initialState "sid").messages ++ [mkUserMessage "hello" 5 "u1" "sid"] := by
  have h : ∀ m ∈ (initialState "sid").messages, m.metadata.message_id ≠ "u1" := by
    intro m hm
    exact absurd hm (List.not_mem_nil m)
  have hc := sendMessage_optimistic_phase (initialState "sid") "hello" 5 "u1" h
  exact ⟨h, hc.2.2.2.2.2.2.2.1, hc.2.2.2.2.2.2.2.2.2.1, hc.1⟩

/-- C2: when the awaited call throws, both dispatch paths drop `isLoading`
and surface the thrown error's message (or the path's fallback string), and
neither rolls back the optimistic phase: the appended requester message and
the answers moved from pending to submitted remain. -/
theorem dispatch_failure_behavior :
    (∀ (s : ChatState) (messageText : String) (ts1 : Nat) (msgId1 : String)
        (e : Option String) (ts2 : Nat) (msgId2 : String),
      (sendMessage s messageText ts1 msgId1 (Except.error e) ts2 msgId2).isLoading = false
        ∧ (sendMessage s messageText ts1 msgId1 (Except.error e) ts2 msgId2).error
            = some (e.getD "Failed to send message")
        ∧ (sendMessage s messageText ts1 msgId1 (Except.error e) ts2 msgId2).messages
            = s.messages ++ [mkUserMessage messageText ts1 msgId1 s.sessionId]
        ∧ (sendMessage s messageText ts1 msgId1 (Except.error e) ts2 msgId2).pendingAnswers
            = []
        ∧ (sendMessage s messageText ts1 msgId1 (Except.error e) ts2 msgId2).submittedAnswers
            = s.submittedAnswers ++ s.pendingAnswers)
    ∧ (∀ (s : ChatState) (e : Option String) (ts : Nat) (msgId : String),
        s.pendingAnswers ≠ [] →
      (submitAnswersOnly s (Except.error e) ts msgId).isLoading = false
        ∧ (submitAnswersOnly s (Except.error e) ts msgId).error
            = some (e.getD "Failed to submit answers")
        ∧ (submitAnswersOnly s (Except.error e) ts msgId).messages = s.messages
        ∧ (submitAnswersOnly s (Except.error e) ts msgId).pendingAnswers = []
        ∧ (submitAnswersOnly s (Except.error e) ts msgId).submittedAnswers
            = s.submittedAnswers ++ s.pendingAnswers) := by
  constructor
  · intro s messageText ts1 msgId1 e ts2 msgId2
    exact ⟨rfl, rfl, rfl, rfl, rfl⟩
  · intro s e ts msgId h
    have hlen : ¬ s.pendingAnswers.length = 0 := by
      simpa [List.length_eq_zero] using h
    unfold submitAnswersOnly
    rw [if_neg hlen]
    exact ⟨rfl, rfl, rfl, rfl, rfl⟩

/-- C2 witness: a failing send surfaces the thrown message and a failing
answers-only submission with non-empty pending keeps the locked move. -/
theorem dispatch_failure_behavior_witness :
    trace1.pendingAnswers ≠ []
      ∧ (sendMessage (initialState "w2") "hi" 0 "a"
          (Except.error (some "network down")) 0 "b").error = some "network down"
      ∧ (submitAnswersOnly trace1 (Except.error none) 0 "c").error
          = some "Failed to submit answers"
      ∧ (submitAnswersOnly trace1 (Except.error none) 0 "c").messages = trace1.messages
      ∧ (submitAnswersOnly trace1 (Except.error none) 0 "c").submittedAnswers
          = trace1.submittedAnswers ++ trace1.pendingAnswers := by
  have h : trace1.pendingAnswers ≠ [] := by
    intro hc
    exact absurd (congrArg List.length hc) (by decide)
  have h1 := (dispatch_failure_behavior.1 (initialState "w2") "hi" 0 "a"
      (some "network down") 0 "b").2.1
  have h2 := dispatch_failure_behavior.2 trace1 none 0 "c" h
  exact ⟨h, h1, h2.2.1, h2.2.2.1, h2.2.2.2.2⟩

/-- C5: with an empty pending list, `submitAnswersOnly` is a silent no-op —
the state is returned untouched and no request is issued. -/
theorem submitAnswersOnly_noop (s : ChatState)
    (result : Except (Option String) ApiTutorResponse) (ts : Nat) (msgId : String)
    (h : s.pendingAnswers = []) :
    submitAnswersOnly s result ts msgId = s ∧ submitAnswersOnlyRequest s = none := by
  have hlen : s.pendingAnswers.length = 0 := by rw [h]; rfl
  constructor
  · unfold submitAnswersOnly
    rw [if_pos hlen]
  · unfold submitAnswersOnlyRequest
    rw [if_pos hlen]

/-- C5 witness: the no-op evaluated at the initial state. -/
theorem submitAnswersOnly_noop_witness :
    (initialState "w5").pendingAnswers = []
      ∧ submitAnswersOnly (initialState "w5") (Except.error none) 0 "m" = initialState "w5"
      ∧ submitAnswersOnlyRequest (initialState "w5") = none := by
  have h := submitAnswersOnly_noop (initialState "w5") (Except.error none) 0 "m" rfl
  exact ⟨rfl, h.1, h.2⟩

/-- C8: the send request carries the given text, the session id and the
pending snapshot exactly when non-empty; the answers-only request carries
the empty-string sentinel and the snapshot; and `submitAnswersOnly` never
appends a student-role message. -/
theorem outbound_request_shape :
    (∀ (s : ChatState) (messageText : String),
      (sendMessageRequest s messageText).question = messageText
        ∧ (sendMessageRequest s messageText).session_id = s.sessionId
        ∧ (s.pendingAnswers ≠ [] →
            (sendMessageRequest s messageText).question_answers = some s.pendingAnswers)
        ∧ (s.pendingAnswers = [] →
            (sendMessageRequest s messageText).question_answers = none))
    ∧ (∀ s : ChatState, s.pendingAnswers ≠ [] →
        submitAnswersOnlyRequest s
          = some { question := "", session_id := s.sessionId,
                   question_answers := some s.pendingAnswers })
    ∧ (∀ (s : ChatState) (result : Except (Option String) ApiTutorResponse)
        (ts : Nat) (msgId : String) (m : ChatMessage),
        m ∈ (submitAnswersOnly s result ts msgId).messages →
        m ∈ s.messages ∨ m.metadata.user_role = "ai_tutor") := by
  refine ⟨?_, ?_, ?_⟩
  · intro s messageText
    refine ⟨rfl, rfl, ?_, ?_⟩
    · intro h
      have hpos : 0 < s.pendingAnswers.length := List.length_pos.mpr h
      unfold sendMessageRequest
      simp only [hpos, if_pos]
    · intro h
      have hneg : ¬ s.pendingAnswers.length > 0 := by rw [h]; exact Nat.lt_irrefl 0
      unfold sendMessageRequest
      simp only [if_neg hneg]
  · intro s h
    have hlen : ¬ s.pendingAnswers.length = 0 := by
      simpa [List.length_eq_zero] using h
    unfold submitAnswersOnlyRequest
    rw [if_neg hlen]
  · intro s result ts msgId m hm
    by_cases hp : s.pendingAnswers.length = 0
    · left
      have e : submitAnswersOnly s result ts msgId = s := by
        unfold submitAnswersOnly
        rw [if_pos hp]
      rw [e] at hm
      exact hm
    · cases result with
      | ok raw =>
        have e : (submitAnswersOnly s (Except.ok raw) ts msgId).messages
            = s.messages
              ++ [mkAiMessage (tutorApiSendMessage raw) ts msgId s.sessionId] := by
          unfold submitAnswersOnly
          rw [if_neg hp]
          rfl
        rw [e] at hm
        rcases List.mem_append.mp hm with h1 | h1
        · exact Or.inl h1
        · right
          rw [List.mem_singleton] at h1
          rw [h1]
          rfl
      | error e0 =>
        have e : (submitAnswersOnly s (Except.error e0) ts msgId).messages
            = s.messages := by
          unfold submitAnswersOnly
          rw [if_neg hp]
          rfl
        rw [e] at hm
        exact Or.inl hm

/-- C8 witness: the requests evaluated at a state with one pending answer,
and the answers-only dispatch appending only a tutor-role message. -/
theorem outbound_request_shape_witness :
    trace1.pendingAnswers ≠ []
      ∧ (sendMessageRequest trace1 "go").question_answers = some trace1.pendingAnswers
      ∧ submitAnswersOnlyRequest trace1
          = some { question := "", session_id := trace1.sessionId,
                   question_answers := some trace1.pendingAnswers }
      ∧ mkAiMessage (tutorApiSendMessage rawResp) 2 "t1" trace1.sessionId
          ∈ (submitAnswersOnly trace1 (Except.ok rawResp) 2 "t1").messages
      ∧ (mkAiMessage (tutorApiSendMessage rawResp) 2 "t1" trace1.sessionId ∈ trace1.messages
          ∨ (mkAiMessage (tutorApiSendMessage rawResp) 2 "t1"
              trace1.sessionId).metadata.user_role = "ai_tutor") := by
  have h : trace1.pendingAnswers ≠ [] := by
    intro hc
    exact absurd (congrArg List.length hc) (by decide)
  have hmem : mkAiMessage (tutorApiSendMessage rawResp) 2 "t1" trace1.sessionId
      ∈ (submitAnswersOnly trace1 (Except.ok rawResp) 2 "t1").messages := by
    exact List.mem_singleton.mpr rfl
  refine ⟨h, (outbound_request_shape.1 trace1 "go").2.2.1 h,
    outbound_request_shape.2.1 trace1 h, hmem,
    outbound_request_shape.2.2 trace1 (Except.ok rawResp) 2 "t1" _ hmem⟩

/-- C4: on a successful call both dispatch paths append one tutor-role
message carrying the response's answer, questions and questions title, and
drop `isLoading`; the received response never carries cited paragraphs
(the api wrapper produces none), so the cited-paragraph clause holds
vacuously. -/
theorem dispatch_success_behavior :
    (∀ (s : ChatState) (messageText : String) (ts1 : Nat) (msgId1 : String)
        (raw : ApiTutorResponse) (ts2 : Nat) (msgId2 : String),
      (sendMessage s messageText ts1 msgId1 (Except.ok raw) ts2 msgId2).messages
          = (s.messages ++ [mkUserMessage messageText ts1 msgId1 s.sessionId])
              ++ [mkAiMessage (tutorApiSendMessage raw) ts2 msgId2 s.sessionId]
        ∧ (mkAiMessage (tutorApiSendMessage raw) ts2 msgId2 s.sessionId).message
            = (tutorApiSendMessage raw).answer
        ∧ (mkAiMessage (tutorApiSendMessage raw) ts2 msgId2 s.sessionId).questions
            = (tutorApiSendMessage raw).questions
        ∧ (mkAiMessage (tutorApiSendMessage raw) ts2 msgId2 s.sessionId).questionsTitle
            = (tutorApiSendMessage raw).questions_title
        ∧ (mkAiMessage (tutorApiSendMessage raw) ts2 msgId2 s.sessionId).metadata.user_role
            = "ai_tutor"
        ∧ (∀ cp, (tutorApiSendMessage raw).cited_paragraphs = some cp →
            (mkAiMessage (tutorApiSendMessage raw) ts2 msgId2 s.sessionId).cited_paragraphs
              = some cp)
        ∧ (sendMessage s messageText ts1 msgId1 (Except.ok raw) ts2 msgId2).isLoading
            = false)
    ∧ (∀ (s : ChatState) (raw : ApiTutorResponse) (ts : Nat) (msgId : String),
        s.pendingAnswers ≠ [] →
        (submitAnswersOnly s (Except.ok raw) ts msgId).messages
            = s.messages ++ [mkAiMessage (tutorApiSendMessage raw) ts msgId s.sessionId]
          ∧ (submitAnswersOnly s (Except.ok raw) ts msgId).isLoading = false) := by
  constructor
  · intro s messageText ts1 msgId1 raw ts2 msgId2
    refine ⟨rfl, rfl, rfl, rfl, rfl, ?_, rfl⟩
    intro cp hcp
    exact absurd hcp (by simp [tutorApiSendMessage])
  · intro s raw ts msgId h
    have hlen : ¬ s.pendingAnswers.length = 0 := by
      simpa [List.length_eq_zero] using h
    unfold submitAnswersOnly
    rw [if_neg hlen]
    exact ⟨rfl, rfl⟩

/-- C4 witness: a successful answers-only dispatch at a state with one
pending answer, and a successful send from the initial state. -/
theorem dispatch_success_behavior_witness :
    trace1.pendingAnswers ≠ []
      ∧ (sendMessage (initialState "w4") "hi" 1 "a" (Except.ok rawResp) 2 "b").isLoading
          = false
      ∧ (mkAiMessage (tutorApiSendMessage rawResp) 2 "b" "w4").message
          = (tutorApiSendMessage rawResp).answer
      ∧ (submitAnswersOnly trace1 (Except.ok rawResp) 2 "t2").messages
          = trace1.messages
            ++ [mkAiMessage (tutorApiSendMessage rawResp) 2 "t2" trace1.sessionId]
      ∧ (submitAnswersOnly trace1 (Except.ok rawResp) 2 "t2").isLoading = false := by
  have h : trace1.pendingAnswers ≠ [] := by
    intro hc
    exact absurd (congrArg List.length hc) (by decide)
  have h1 := dispatch_success_behavior.1 (initialState "w4") "hi" 1 "a" rawResp 2 "b"
  have h2 := dispatch_success_behavior.2 trace1 rawResp 2 "t2" h
  exact ⟨h, h1.2.2.2.2.2.2, h1.2.1, h2.1, h2.2⟩

/-- C10: the api wrapper always yields a present (possibly empty) questions
list, defaulting a missing raw `questions` to `[]`; hence the tutor message
appended on any successful dispatch has a present questions list. -/
theorem tutorApi_questions_default :
    (∀ raw : ApiTutorResponse,
        (tutorApiSendMessage raw).questions = some (raw.questions.getD []))
    ∧ (∀ raw : ApiTutorResponse, raw.questions = none →
        (tutorApiSendMessage raw).questions = some [])
    ∧ (∀ (s : ChatState) (messageText : String) (ts1 : Nat) (msgId1 : String)
        (raw : ApiTutorResponse) (ts2 : Nat) (msgId2 : String),
        (sendMessage s messageText ts1 msgId1 (Except.ok raw) ts2 msgId2).messages.getLast?
            = some (mkAiMessage (tutorApiSendMessage raw) ts2 msgId2 s.sessionId)
          ∧ (mkAiMessage (tutorApiSendMessage raw) ts2 msgId2 s.sessionId).questions
            = some (raw.questions.getD []))
    ∧ (∀ (s : ChatState) (raw : ApiTutorResponse) (ts : Nat) (msgId : String),
        s.pendingAnswers ≠ [] →
        (submitAnswersOnly s (Except.ok raw) ts msgId).messages.getLast?
          = some (mkAiMessage (tutorApiSendMessage raw) ts msgId s.sessionId)) := by
  refine ⟨fun raw => rfl, ?_, ?_, ?_⟩
  · intro raw h
    unfold tutorApiSendMessage
    rw [h]
    rfl
  · intro s messageText ts1 msgId1 raw ts2 msgId2
    constructor
    · have e : (sendMessage s messageText ts1 msgId1 (Except.ok raw) ts2 msgId2).messages
          = (s.messages ++ [mkUserMessage messageText ts1 msgId1 s.sessionId])
            ++ [mkAiMessage (tutorApiSendMessage raw) ts2 msgId2 s.sessionId] := rfl
      rw [e]
      exact List.getLast?_concat _
    · rfl
  · intro s raw ts msgId h
    have hlen : ¬ s.pendingAnswers.length = 0 := by
      simpa [List.length_eq_zero] using h
    have e : (submitAnswersOnly s (Except.ok raw) ts msgId).messages
        = s.messages ++ [mkAiMessage (tutorApiSendMessage raw) ts msgId s.sessionId] := by
      unfold submitAnswersOnly
      rw [if_neg hlen]
      rfl
    rw [e]
    exact List.getLast?_concat _

/-- C10 witness: a raw response without questions yields `some []` and the
appended tutor message of a concrete dispatch carries it. -/
theorem tutorApi_questions_default_witness :
    rawResp.questions = none
      ∧ (tutorApiSendMessage rawResp).questions = some []
      ∧ trace1.pendingAnswers ≠ []
      ∧ (submitAnswersOnly trace1 (Except.ok rawResp) 2 "t3").messages.getLast?
          = some (mkAiMessage (tutorApiSendMessage rawResp) 2 "t3" trace1.sessionId) := by
  have h : trace1.pendingAnswers ≠ [] := by
    intro hc
    exact absurd (congrArg List.length hc) (by decide)
  exact ⟨rfl, tutorApi_questions_default.2.1 rawResp rfl, h,
    tutorApi_questions_default.2.2.2 trace1 rawResp 2 "t3" h⟩

/-- The accumulator form of `allQuestions` unrolled to a map-flatten. -/
theorem allQuestions_foldl_eq (msgs : List ChatMessage) (acc : List Question) :
    msgs.foldl (fun a msg => a ++ msg.questions.getD []) acc
      = acc ++ (msgs.map (fun m => m.questions.getD [])).flatten := by
  induction msgs generalizing acc with
  | nil => simp
  | cons m ms ih => simp [ih, List.append_assoc]

/-- C6: `allQuestions` is exactly the in-order concatenation of each
message's questions list (absent lists contribute nothing), with no
deduplication; in particular question sets `[qx, qy]` then `[qz]` flatten
to `[qx, qy, qz]`. -/
theorem allQuestions_concat :
    (∀ msgs : List ChatMessage,
        allQuestions msgs = (msgs.map (fun m => m.questions.getD [])).flatten)
    ∧ (∀ (m1 m2 : ChatMessage) (q1 q2 q3 : Question),
        m1.questions = some [q1, q2] → m2.questions = some [q3] →
        allQuestions [m1, m2] = [q1, q2, q3]) := by
  constructor
  · intro msgs
    simpa using allQuestions_foldl_eq msgs []
  · intro m1 m2 q1 q2 q3 h1 h2
    simp [allQuestions, h1, h2]

/-- C6 witness: two concrete tutor messages carrying `[qX, qY]` and `[qZ]`. -/
theorem allQuestions_concat_witness :
    tutorMsg1.questions = some [qX, qY]
      ∧ tutorMsg2.questions = some [qZ]
      ∧ allQuestions [tutorMsg1, tutorMsg2] = [qX, qY, qZ] :=
  ⟨rfl, rfl, allQuestions_concat.2 tutorMsg1 tutorMsg2 qX qY qZ rfl rfl⟩

/-- C7: the submitted (locked) list grows monotonically — across any single
application of any of the four operations, every previously submitted
answer is still submitted afterwards. -/
theorem submitted_monotone (s t : ChatState) (h : OpStep s t) :
    ∀ a ∈ s.submittedAnswers, a ∈ t.submittedAnswers := by
  intro a ha
  cases h with
  | setPending answers => exact ha
  | send messageText ts1 msgId1 result ts2 msgId2 =>
    cases result with
    | ok raw => exact List.mem_append_left _ ha
    | error e => exact List.mem_append_left _ ha
  | submit result ts msgId =>
    by_cases hp : s.pendingAnswers.length = 0
    · have e : submitAnswersOnly s result ts msgId = s := by
        unfold submitAnswersOnly
        rw [if_pos hp]
      rw [e]
      exact ha
    · cases result with
      | ok raw =>
        have e : (submitAnswersOnly s (Except.ok raw) ts msgId).submittedAnswers
            = s.submittedAnswers ++ s.pendingAnswers := by
          unfold submitAnswersOnly
          rw [if_neg hp]
          rfl
        rw [e]
        exact List.mem_append_left _ ha
      | error e0 =>
        have e : (submitAnswersOnly s (Except.error e0) ts msgId).submittedAnswers
            = s.submittedAnswers ++ s.pendingAnswers := by
          unfold submitAnswersOnly
          rw [if_neg hp]
          rfl
        rw [e]
        exact List.mem_append_left _ ha
  | clear => exact ha

/-- C7 witness: the q1 answer locked by a send survives a `clearError`. -/
theorem submitted_monotone_witness :
    OpStep trace2 (clearError trace2)
      ∧ qaA ∈ trace2.submittedAnswers
      ∧ qaA ∈ (clearError trace2).submittedAnswers := by
  have hstep : OpStep trace2 (clearError trace2) := OpStep.clear trace2
  have hmem : qaA ∈ trace2.submittedAnswers := List.mem_singleton.mpr rfl
  exact ⟨hstep, hmem, submitted_monotone trace2 (clearError trace2) hstep qaA hmem⟩

/-- C9: the transcript is append-only — every operation leaves the previous
message list as a prefix of the new one — and, under the monotone-clock
assumption on the timestamps handed to the appends, the transcript's
timestamps are pairwise non-decreasing in every reachable state. -/
theorem messages_append_only_chronological :
    (∀ s t : ChatState, OpStep s t → s.messages <+: t.messages)
    ∧ (∀ s : ChatState, ClockedReachable s →
        List.Pairwise
          (fun m1 m2 : ChatMessage => m1.metadata.timestamp ≤ m2.metadata.timestamp)
          s.messages) := by
  constructor
  · intro s t h
    cases h with
    | setPending answers => exact List.prefix_refl _
    | send messageText ts1 msgId1 result ts2 msgId2 =>
      cases result with
      | ok raw =>
        have e : (sendMessage s messageText ts1 msgId1 (Except.ok raw) ts2 msgId2).messages
            = (s.messages ++ [mkUserMessage messageText ts1 msgId1 s.sessionId])
              ++ [mkAiMessage (tutorApiSendMessage raw) ts2 msgId2 s.sessionId] := rfl
        rw [e]
        exact (List.prefix_append _ _).trans (List.prefix_append _ _)
      | error e0 => exact List.prefix_append _ _
    | submit result ts msgId =>
      by_cases hp : s.pendingAnswers.length = 0
      · have e : submitAnswersOnly s result ts msgId = s := by
          unfold submitAnswersOnly
          rw [if_pos hp]
        rw [e]
      · cases result with
        | ok raw =>
          have e : (submitAnswersOnly s (Except.ok raw) ts msgId).messages
              = s.messages
                ++ [mkAiMessage (tutorApiSendMessage raw) ts msgId s.sessionId] := by
            unfold submitAnswersOnly
            rw [if_neg hp]
            rfl
          rw [e]
          exact List.prefix_append _ _
        | error e0 =>
          have e : (submitAnswersOnly s (Except.error e0) ts msgId).messages
              = s.messages := by
            unfold submitAnswersOnly
            rw [if_neg hp]
            rfl
          rw [e]
    | clear => exact List.prefix_refl _
  · intro s hre
    induction hre with
    | init sid => exact List.Pairwise.nil
    | step hr hstep ih =>
      rename_i s0 t0
      cases hstep with
      | setPending answers => exact ih
      | send messageText ts1 msgId1 result ts2 msgId2 h1 h2 =>
        cases result with
        | ok raw =>
          have e : (sendMessage s0 messageText ts1 msgId1
                (Except.ok raw) ts2 msgId2).messages
              = (s0.messages ++ [mkUserMessage messageText ts1 msgId1 s0.sessionId])
                ++ [mkAiMessage (tutorApiSendMessage raw) ts2 msgId2 s0.sessionId] := rfl
          rw [e]
          refine List.pairwise_append.mpr
            ⟨List.pairwise_append.mpr ⟨ih, by simp, ?_⟩, by simp, ?_⟩
          · intro a ha b hb
            rw [List.mem_singleton] at hb
            subst hb
            exact h1 a ha
          · intro a ha b hb
            rw [List.mem_singleton] at hb
            subst hb
            rcases List.mem_append.mp ha with hx | hx
            · exact le_trans (h1 a hx) h2
            · rw [List.mem_singleton] at hx
              subst hx
              exact h2
        | error e0 =>
          have e : (sendMessage s0 messageText ts1 msgId1
                (Except.error e0) ts2 msgId2).messages
              = s0.messages ++ [mkUserMessage messageText ts1 msgId1 s0.sessionId] := rfl
          rw [e]
          refine List.pairwise_append.mpr ⟨ih, by simp, ?_⟩
          intro a ha b hb
          rw [List.mem_singleton] at hb
          subst hb
          exact h1 a ha
      | submit result ts msgId h0 =>
        by_cases hp : s0.pendingAnswers.length = 0
        · have e : submitAnswersOnly s0 result ts msgId = s0 := by
            unfold submitAnswersOnly
            rw [if_pos hp]
          rw [e]
          exact ih
        · cases result with
          | ok raw =>
            have e : (submitAnswersOnly s0 (Except.ok raw) ts msgId).messages
                = s0.messages
                  ++ [mkAiMessage (tutorApiSendMessage raw) ts msgId s0.sessionId] := by
              unfold submitAnswersOnly
              rw [if_neg hp]
              rfl
            rw [e]
            refine List.pairwise_append.mpr ⟨ih, by simp, ?_⟩
            intro a ha b hb
            rw [List.mem_singleton] at hb
            subst hb
            exact h0 a ha
          | error e0 =>
            have e : (submitAnswersOnly s0 (Except.error e0) ts msgId).messages
                = s0.messages := by
              unfold submitAnswersOnly
              rw [if_neg hp]
              rfl
            rw [e]
            exact ih
      | clear => exact ih

/-- C9 witness: a concrete clear step keeps the transcript as a prefix, and
a concrete clocked send from the initial state yields a chronologically
sorted transcript. -/
theorem messages_append_only_chronological_witness :
    OpStep trace2 (clearError trace2)
      ∧ trace2.messages <+: (clearError trace2).messages
      ∧ ClockedReachable (sendMessage (initialState "c") "hi" 1 "ca" (Except.ok rawResp) 2 "cb")
      ∧ List.Pairwise
          (fun m1 m2 : ChatMessage => m1.metadata.timestamp ≤ m2.metadata.timestamp)
          (sendMessage (initialState "c") "hi" 1 "ca" (Except.ok rawResp) 2 "cb").messages := by
  have hstep : OpStep trace2 (clearError trace2) := OpStep.clear trace2
  have hcs : ClockedStep (initialState "c")
      (sendMessage (initialState "c") "hi" 1 "ca" (Except.ok rawResp) 2 "cb") := by
    refine ClockedStep.send _ "hi" 1 "ca" (Except.ok rawResp) 2 "cb" ?_ ?_
    · intro m hm
      exact absurd hm (List.not_mem_nil m)
    · exact Nat.le_succ 1
  have hcr : ClockedReachable
      (sendMessage (initialState "c") "hi" 1 "ca" (Except.ok rawResp) 2 "cb") :=
    ClockedReachable.step (ClockedReachable.init "c") hcs
  exact ⟨hstep, messages_append_only_chronological.1 _ _ hstep, hcr,
    messages_append_only_chronological.2 _ hcr⟩

/-- C1 counterexample: the claimed pending/locked disjointness fails on the
code as stated — after a send locks q1, an unguarded `setPendingAnswers`
call reintroduces q1 into pending, reaching a state where the same
`questionId` sits in both lists. -/
theorem pending_locked_common_id :
    Reachable trace3
      ∧ qaB ∈ trace3.pendingAnswers
      ∧ qaA ∈ trace3.submittedAnswers
      ∧ qaB.questionId = qaA.questionId := by
  refine ⟨?_, List.mem_singleton.mpr rfl, List.mem_singleton.mpr rfl, rfl⟩
  exact Reachable.step
    (Reachable.step
      (Reachable.step (Reachable.init "s0") (OpStep.setPending _ [qaA]))
      (OpStep.send _ "hi" 1 "m1" (Except.error none) 1 "m2"))
    (OpStep.setPending _ [qaB])

/-- C1 amended: when every `setPendingAnswers` call obeys the caller
contract of excluding already-locked question ids, every reachable state
keeps the pending and submitted (locked) lists disjoint by `questionId`. -/
theorem pending_locked_disjoint_guarded (s : ChatState) (hre : GuardedReachable s) :
    ∀ a ∈ s.pendingAnswers, ∀ b ∈ s.submittedAnswers, a.questionId ≠ b.questionId := by
  induction hre with
  | init sid =>
    intro a ha
    exact absurd ha (List.not_mem_nil a)
  | step hr hstep ih =>
    rename_i s0 t0
    cases hstep with
    | setPending answers h =>
      intro a ha b hb
      exact h a ha b hb
    | send messageText ts1 msgId1 result ts2 msgId2 =>
      intro a ha
      cases result with
      | ok raw =>
        have e : (sendMessage s0 messageText ts1 msgId1
            (Except.ok raw) ts2 msgId2).pendingAnswers = [] := rfl
        rw [e] at ha
        exact absurd ha (List.not_mem_nil a)
      | error e0 =>
        have e : (sendMessage s0 messageText ts1 msgId1
            (Except.error e0) ts2 msgId2).pendingAnswers = [] := rfl
        rw [e] at ha
        exact absurd ha (List.not_mem_nil a)
    | submit result ts msgId =>
      by_cases hp : s0.pendingAnswers.length = 0
      · have e : submitAnswersOnly s0 result ts msgId = s0 := by
          unfold submitAnswersOnly
          rw [if_pos hp]
        rw [e]
        exact ih
      · intro a ha
        cases result with
        | ok raw =>
          have e : (submitAnswersOnly s0 (Except.ok raw) ts msgId).pendingAnswers = [] := by
            unfold submitAnswersOnly
            rw [if_neg hp]
            rfl
          rw [e] at ha
          exact absurd ha (List.not_mem_nil a)
        | error e0 =>
          have e : (submitAnswersOnly s0 (Except.error e0) ts msgId).pendingAnswers
              = [] := by
            unfold submitAnswersOnly
            rw [if_neg hp]
            rfl
          rw [e] at ha
          exact absurd ha (List.not_mem_nil a)
    | clear =>
      intro a ha b hb
      exact ih a ha b hb

/-- C1 amended witness: a guarded trace that locks q1 and then pends q2
reaches a state whose pending and locked question ids differ. -/
theorem pending_locked_disjoint_guarded_witness :
    GuardedReachable trace4
      ∧ qaC ∈ trace4.pendingAnswers
      ∧ qaA ∈ trace4.submittedAnswers
      ∧ qaC.questionId ≠ qaA.questionId := by
  have hre : GuardedReachable trace4 := by
    refine GuardedReachable.step
      (GuardedReachable.step
        (GuardedReachable.step (GuardedReachable.init "s0")
          (GuardedStep.setPending _ [qaA] ?_))
        (GuardedStep.send _ "hi" 1 "m1" (Except.error none) 1 "m2"))
      (GuardedStep.setPending _ [qaC] ?_)
    · intro a ha b hb
      exact absurd hb (List.not_mem_nil b)
    · decide
  have hmp : qaC ∈ trace4.pendingAnswers := List.mem_singleton.mpr rfl
  have hms : qaA ∈ trace4.submittedAnswers := List.mem_singleton.mpr rfl
  exact ⟨hre, hmp, hms, pending_locked_disjoint_guarded trace4 hre qaC hmp qaA hms⟩
